import Mathlib

/-!
Shallow embedding of the gosqueak/apikit repository (Go) for checking its
natural-language specification.

The repository has three source files:
  - src/apikit.go holds two concatenated revisions of the package; both
    contain a reflection-based generic function Retry together with the
    error-response helpers, cookie helpers and CookieTokenMiddleware.
  - src/unnamed/part_000 is a third revision of the same package whose Retry
    differs in one line: the second reflected result is type-asserted to the
    error interface unconditionally.
  - src/unnamed/part_001 is the middleware package with CheckToken.

Machine integers do not overflow on the values involved (Go int64 durations
stay far below 2^63 for the attempt counts considered), so durations are
modelled as Nat nanoseconds; time.Second is 1000000000 ns.
-/

namespace Apikit

/-- Observable events of one Retry run: `call i` is the i-th reflected
invocation of fn (`fnValue.Call(values)`), `sleep ns` is `time.Sleep` of
`ns` nanoseconds. The diagnostic print is not observable and not modelled. -/
inductive REvent where
  | call : Nat → REvent
  | sleep : Nat → REvent
deriving DecidableEq, Repr

/-- How a Retry run ends.
`ok v` is the in-loop `return returnedT, nil`;
`lastErr v e` is the after-loop `return returnedT, returnedError.(error)`
succeeding on a non-nil error;
`done v e` is the after-loop plain `return returnedT, returnedError` of the
part_000 revision, whose returnedError variable is typed error and may be nil;
`panicShape` is the `panic("fn must be a function that returns (any, error)")`;
`panicFirstAssert i` is a run-time panic of `results[0].Interface().(T)` at
invocation i when the dynamic type of the first result is not T;
`panicErrAssert i` is a run-time panic of `results[1].Interface().(error)` at
invocation i on a nil interface (part_000 revision only);
`panicNilErrAssert` is a run-time panic of the after-loop
`returnedError.(error)` when returnedError still holds a nil interface. -/
inductive RetryOutcome (T E : Type) where
  | ok : T → RetryOutcome T E
  | lastErr : T → E → RetryOutcome T E
  | done : T → Option E → RetryOutcome T E
  | panicShape : RetryOutcome T E
  | panicFirstAssert : Nat → RetryOutcome T E
  | panicErrAssert : Nat → RetryOutcome T E
  | panicNilErrAssert : RetryOutcome T E
deriving DecidableEq, Repr

/-- The reflective facts about fn that Retry inspects: `isFunc` is
`fnValue.Kind() == reflect.Func`, `numOut` is `fnType.NumOut()`,
`out1IsError` is `fnType.Out(1) == reflect.TypeOf((*error)(nil)).Elem()`,
and `out0Ty` is a runtime identifier of `fnType.Out(0)`, the declared type
of the first result (carried here so that one can state which parts of the
shape the precondition check reads). -/
structure FnShape where
  isFunc : Bool
  numOut : Nat
  out1IsError : Bool
  out0Ty : Nat
deriving DecidableEq, Repr

/-- The closure `paramsAreValid` of Retry in src/apikit.go (lines 128-133;
the second revision inlines the same condition at line 292, and part_000 has
it at lines 122-127). Despite its name it returns true when the shape is BAD:
`fnValue.Kind() != reflect.Func || fnType.NumOut() != 2 || fnType.Out(1) != error`.
Short-circuit evaluation means numOut is never read for a non-function,
matching the Bool or-else here. -/
def paramsAreValid (s : FnShape) : Bool :=
  !s.isFunc || s.numOut != 2 || !s.out1IsError

/-- What one reflected invocation `fnValue.Call(values)` yields:
`ty` is the runtime type identifier of the dynamic value in `results[0]`
(compared against the identifier of T by the assertion
`results[0].Interface().(T)`); `val` is that value read at type T (only
used when the assertion succeeds); `err` is `results[1].Interface()`, with
`none` standing for a nil error interface. -/
structure CallResult (T E : Type) where
  ty : Nat
  val : T
  err : Option E

/-- The retry loop of Retry in src/apikit.go (lines 150-169 of the first
revision, lines 306-326 of the second; both are the same algorithm).
`fuel` is the number of loop iterations still allowed (`nTries - tryIdx`),
`lastT`/`lastE` are the Go variables `returnedT`/`returnedError`, `tryIdx`
is the loop counter `try`, and `interval` is the current backoff interval in
nanoseconds. Each iteration first sleeps (when `try > 0`) and doubles the
interval, then calls fn; the first result is asserted to T (a run-time panic
on a dynamic-type mismatch), the second is kept as an interface; a nil error
returns immediately, otherwise the loop continues. When the loop exhausts,
the kept interface is asserted to error: a nil interface (possible only when
the loop body never ran) panics. -/
def retryLoop (Tty : Nat) (op : Nat → CallResult T E) :
    Nat → T → Option E → Nat → Nat → List REvent × RetryOutcome T E
  | 0, lastT, lastE, _, _ =>
      ([], match lastE with
        | some e => RetryOutcome.lastErr lastT e
        | none => RetryOutcome.panicNilErrAssert)
  | fuel + 1, _, _, tryIdx, interval =>
      let pre : List REvent := if 0 < tryIdx then [REvent.sleep interval] else []
      let interval2 : Nat := if 0 < tryIdx then interval * 2 else interval
      let r := op tryIdx
      if r.ty = Tty then
        match r.err with
        | none => (pre ++ [REvent.call tryIdx], RetryOutcome.ok r.val)
        | some e =>
            let rest := retryLoop Tty op fuel r.val (some e) (tryIdx + 1) interval2
            (pre ++ REvent.call tryIdx :: rest.1, rest.2)
      else
        (pre ++ [REvent.call tryIdx], RetryOutcome.panicFirstAssert tryIdx)

/-- Retry of src/apikit.go (first revision lines 124-170; the second revision
at lines 288-327 takes nTries as uint instead of int but is otherwise the
same algorithm, so both are embedded by this one definition with nTries as
Nat). `Tty` is the runtime identifier of the type parameter T, `shape` the
reflective shape of fn, `op` the behaviour of the reflected calls (invocation
number to results), `zeroT` the zero value of T used to initialise
`returnedT`. The variadic fnargs only feed the reflected calls and are
absorbed into `op`. Returns the event trace paired with the outcome. -/
def Retry (Tty : Nat) (shape : FnShape) (nTries : Nat)
    (op : Nat → CallResult T E) (zeroT : T) : List REvent × RetryOutcome T E :=
  if paramsAreValid shape then ([], RetryOutcome.panicShape)
  else retryLoop Tty op nTries zeroT none 0 1000000000

/-- The retry loop of the Retry revision in src/unnamed/part_000 (lines
144-162). Identical to `retryLoop` except for one line: after the call,
`returnedError = results[1].Interface().(error)` asserts the second result
to error BEFORE the nil check, so an invocation that returns a nil error
panics at that assertion (a nil interface never satisfies a single-value
type assertion) and the success return below it is unreachable; when the
assertion succeeds the error is necessarily non-nil and the loop continues.
After the loop, `return returnedT, returnedError` returns the typed error
variable directly (nil when the loop body never ran), with no assertion. -/
def retryLoopPart000 (Tty : Nat) (op : Nat → CallResult T E) :
    Nat → T → Option E → Nat → Nat → List REvent × RetryOutcome T E
  | 0, lastT, lastE, _, _ => ([], RetryOutcome.done lastT lastE)
  | fuel + 1, _, _, tryIdx, interval =>
      let pre : List REvent := if 0 < tryIdx then [REvent.sleep interval] else []
      let interval2 : Nat := if 0 < tryIdx then interval * 2 else interval
      let r := op tryIdx
      if r.ty = Tty then
        match r.err with
        | none => (pre ++ [REvent.call tryIdx], RetryOutcome.panicErrAssert tryIdx)
        | some e =>
            let rest := retryLoopPart000 Tty op fuel r.val (some e) (tryIdx + 1) interval2
            (pre ++ REvent.call tryIdx :: rest.1, rest.2)
      else
        (pre ++ [REvent.call tryIdx], RetryOutcome.panicFirstAssert tryIdx)

/-- Retry of src/unnamed/part_000 (lines 118-164): same precondition check
and loop entry as the apikit.go revisions, but running `retryLoopPart000`. -/
def RetryPart000 (Tty : Nat) (shape : FnShape) (nTries : Nat)
    (op : Nat → CallResult T E) (zeroT : T) : List REvent × RetryOutcome T E :=
  if paramsAreValid shape then ([], RetryOutcome.panicShape)
  else retryLoopPart000 Tty op nTries zeroT none 0 1000000000

/-- Closed form of the event trace every run produces, starting at attempt
`j` (whose backoff interval is 1000000000 * 2 ^ (j - 1) nanoseconds, which
for j = 0 also denotes the initial 1 s interval since Nat subtraction gives
0 - 1 = 0): no sleep before attempt 0, a single sleep of
1000000000 * 2 ^ (i - 1) ns directly before each attempt i with i >= 1, and
nothing after the final attempt. -/
def canonicalFrom (j : Nat) : Nat → List REvent
  | 0 => []
  | c + 1 =>
      (if 0 < j then [REvent.sleep (1000000000 * 2 ^ (j - 1))] else [])
        ++ REvent.call j :: canonicalFrom (j + 1) c

/-- The canonical trace of a run of `c` attempts numbered from 0. -/
def canonicalEvents (c : Nat) : List REvent := canonicalFrom 0 c

/-- Whether an event is an invocation of fn. -/
def isCallEvent : REvent → Bool
  | REvent.call _ => true
  | REvent.sleep _ => false

/-- Number of invocations of fn recorded in a trace. -/
def countCalls (evs : List REvent) : Nat := (evs.filter isCallEvent).length

/-- Doubling the interval after the sleep of attempt j yields the interval of
attempt j + 1 (for attempt 0 the interval is left untouched). -/
theorem interval_step (j : Nat) :
    (if 0 < j then 1000000000 * 2 ^ (j - 1) * 2 else 1000000000 * 2 ^ (j - 1))
      = 1000000000 * 2 ^ j := by
  rcases Nat.eq_zero_or_pos j with h | h
  · subst h; simp
  · rw [if_pos h, mul_assoc, ← pow_succ, Nat.sub_add_cancel h]

/-- Loop lemma: when the attempts starting at j fail k times and then succeed,
the loop performs exactly k + 1 calls with the canonical sleeps and returns
the success value with a nil error. -/
theorem retryLoop_first_success {T E : Type} (Tty : Nat) (op : Nat → CallResult T E) :
    ∀ (k fuel j : Nat) (lastT : T) (lastE : Option E),
      k < fuel →
      (∀ i, i ≤ k → (op (j + i)).ty = Tty) →
      (∀ i, i < k → (op (j + i)).err ≠ none) →
      (op (j + k)).err = none →
      retryLoop Tty op fuel lastT lastE j (1000000000 * 2 ^ (j - 1))
        = (canonicalFrom j (k + 1), RetryOutcome.ok (op (j + k)).val) := by
  intro k
  induction k with
  | zero =>
    intro fuel j lastT lastE hk hty _ hsucc
    obtain ⟨f, rfl⟩ : ∃ f, fuel = f + 1 := ⟨fuel - 1, by omega⟩
    have hty0 : (op j).ty = Tty := by simpa using hty 0 (Nat.le_refl 0)
    have hs : (op j).err = none := by simpa using hsucc
    simp [retryLoop, canonicalFrom, hty0, hs]
  | succ k ih =>
    intro fuel j lastT lastE hk hty hfail hsucc
    obtain ⟨f, rfl⟩ : ∃ f, fuel = f + 1 := ⟨fuel - 1, by omega⟩
    have hty0 : (op j).ty = Tty := by simpa using hty 0 (Nat.zero_le _)
    have hf0 : (op j).err ≠ none := by simpa using hfail 0 (Nat.succ_pos k)
    obtain ⟨e, he⟩ := Option.ne_none_iff_exists'.mp hf0
    have ihres := ih f (j + 1) (op j).val (some e) (by omega)
      (fun i hi => by
        have h2 := hty (i + 1) (by omega)
        rwa [show j + (i + 1) = j + 1 + i by omega] at h2)
      (fun i hi => by
        have h2 := hfail (i + 1) (by omega)
        rwa [show j + (i + 1) = j + 1 + i by omega] at h2)
      (by
        have h2 := hsucc
        rwa [show j + (k + 1) = j + 1 + k by omega] at h2)
    simp only [Nat.add_sub_cancel] at ihres
    rw [show j + (k + 1) = j + 1 + k by omega]
    simp [retryLoop, hty0, he, canonicalFrom, interval_step, ihres]

/-- Loop lemma: when all m attempts starting at j fail, the loop performs
exactly m calls with the canonical sleeps and returns the value and error
of the final attempt. -/
theorem retryLoop_all_fail {T E : Type} (Tty : Nat) (op : Nat → CallResult T E)
    (errf : Nat → E) :
    ∀ (m j : Nat) (lastT : T) (lastE : Option E),
      0 < m →
      (∀ i, i < m → (op (j + i)).ty = Tty) →
      (∀ i, i < m → (op (j + i)).err = some (errf (j + i))) →
      retryLoop Tty op m lastT lastE j (1000000000 * 2 ^ (j - 1))
        = (canonicalFrom j m,
            RetryOutcome.lastErr (op (j + (m - 1))).val (errf (j + (m - 1)))) := by
  intro m
  induction m with
  | zero => intro j lastT lastE h; omega
  | succ m ih =>
    intro j lastT lastE _ hty hfail
    have hty0 : (op j).ty = Tty := by simpa using hty 0 (Nat.succ_pos m)
    have he0 : (op j).err = some (errf j) := by simpa using hfail 0 (Nat.succ_pos m)
    rcases Nat.eq_zero_or_pos m with hm | hm
    · subst hm
      simp [retryLoop, hty0, he0, canonicalFrom]
    · have ihres := ih (j + 1) (op j).val (some (errf j)) hm
        (fun i hi => by
          have h2 := hty (i + 1) (by omega)
          rwa [show j + (i + 1) = j + 1 + i by omega] at h2)
        (fun i hi => by
          have h2 := hfail (i + 1) (by omega)
          rwa [show j + (i + 1) = j + 1 + i by omega] at h2)
      simp only [Nat.add_sub_cancel] at ihres
      simp [retryLoop, hty0, he0, canonicalFrom, interval_step, ihres]
      rw [show j + 1 + (m - 1) = j + m by omega]
      exact ⟨rfl, rfl⟩

/-- Loop lemma: whatever op does, the event trace of the loop is a canonical
trace (sleeps of 1000000000 * 2 ^ (i - 1) ns directly before each attempt
i >= 1, none before attempt 0 or after the last attempt). -/
theorem retryLoop_events {T E : Type} (Tty : Nat) (op : Nat → CallResult T E) :
    ∀ (fuel j : Nat) (lastT : T) (lastE : Option E),
      ∃ c, (retryLoop Tty op fuel lastT lastE j (1000000000 * 2 ^ (j - 1))).1
        = canonicalFrom j c := by
  intro fuel
  induction fuel with
  | zero => intro j lastT lastE; exact ⟨0, by simp [retryLoop, canonicalFrom]⟩
  | succ fuel ih =>
    intro j lastT lastE
    by_cases hty : (op j).ty = Tty
    · cases herr : (op j).err with
      | none => exact ⟨1, by simp [retryLoop, hty, herr, canonicalFrom]⟩
      | some e =>
        obtain ⟨c, hc⟩ := ih (j + 1) (op j).val (some e)
        simp only [Nat.add_sub_cancel] at hc
        exact ⟨c + 1, by simp [retryLoop, hty, herr, canonicalFrom, interval_step, hc]⟩
    · exact ⟨1, by simp [retryLoop, hty, canonicalFrom]⟩

/-- A canonical trace of c attempts records exactly c invocations of fn. -/
theorem countCalls_canonicalFrom : ∀ (c j : Nat), countCalls (canonicalFrom j c) = c := by
  intro c
  induction c with
  | zero => intro j; simp [canonicalFrom, countCalls]
  | succ c ih =>
    intro j
    have h2 := ih (j + 1)
    simp only [countCalls] at h2 ⊢
    rcases Nat.eq_zero_or_pos j with h | h
    · subst h
      simp [canonicalFrom, List.filter_append, isCallEvent, h2]
    · simp [canonicalFrom, List.filter_append, isCallEvent, h, h2]

/-- The loop never raises the shape panic: that panic happens only before the
loop is entered. -/
theorem retryLoop_ne_panicShape {T E : Type} (Tty : Nat) (op : Nat → CallResult T E) :
    ∀ (fuel : Nat) (lastT : T) (lastE : Option E) (j interval : Nat),
      (retryLoop Tty op fuel lastT lastE j interval).2 ≠ RetryOutcome.panicShape := by
  intro fuel
  induction fuel with
  | zero => intro lastT lastE j interval; cases lastE <;> simp [retryLoop]
  | succ fuel ih =>
    intro lastT lastE j interval
    by_cases hty : (op j).ty = Tty
    · cases herr : (op j).err with
      | none => simp [retryLoop, hty, herr]
      | some e =>
        simp only [retryLoop, hty, herr]
        simp [hty, herr]
        exact ih (op j).val (some e) (j + 1) _
    · simp [retryLoop, hty]

/-- Loop lemma for the part_000 revision: when the attempts starting at j
fail k times and the next one returns a nil error, the loop panics at the
`results[1].Interface().(error)` assertion of that invocation, after the
invocation itself has happened. -/
theorem retryLoopPart000_first_nil {T E : Type} (Tty : Nat) (op : Nat → CallResult T E) :
    ∀ (k fuel j : Nat) (lastT : T) (lastE : Option E),
      k < fuel →
      (∀ i, i ≤ k → (op (j + i)).ty = Tty) →
      (∀ i, i < k → (op (j + i)).err ≠ none) →
      (op (j + k)).err = none →
      retryLoopPart000 Tty op fuel lastT lastE j (1000000000 * 2 ^ (j - 1))
        = (canonicalFrom j (k + 1), RetryOutcome.panicErrAssert (j + k)) := by
  intro k
  induction k with
  | zero =>
    intro fuel j lastT lastE hk hty _ hsucc
    obtain ⟨f, rfl⟩ : ∃ f, fuel = f + 1 := ⟨fuel - 1, by omega⟩
    have hty0 : (op j).ty = Tty := by simpa using hty 0 (Nat.le_refl 0)
    have hs : (op j).err = none := by simpa using hsucc
    simp [retryLoopPart000, canonicalFrom, hty0, hs]
  | succ k ih =>
    intro fuel j lastT lastE hk hty hfail hsucc
    obtain ⟨f, rfl⟩ : ∃ f, fuel = f + 1 := ⟨fuel - 1, by omega⟩
    have hty0 : (op j).ty = Tty := by simpa using hty 0 (Nat.zero_le _)
    have hf0 : (op j).err ≠ none := by simpa using hfail 0 (Nat.succ_pos k)
    obtain ⟨e, he⟩ := Option.ne_none_iff_exists'.mp hf0
    have ihres := ih f (j + 1) (op j).val (some e) (by omega)
      (fun i hi => by
        have h2 := hty (i + 1) (by omega)
        rwa [show j + (i + 1) = j + 1 + i by omega] at h2)
      (fun i hi => by
        have h2 := hfail (i + 1) (by omega)
        rwa [show j + (i + 1) = j + 1 + i by omega] at h2)
      (by
        have h2 := hsucc
        rwa [show j + (k + 1) = j + 1 + k by omega] at h2)
    simp only [Nat.add_sub_cancel] at ihres
    rw [show j + (k + 1) = j + 1 + k by omega]
    simp [retryLoopPart000, hty0, he, canonicalFrom, interval_step, ihres]

/-- The part_000 loop can never produce the in-loop success return: the nil
check sits below the error-interface assertion, which panics exactly when
the error is nil. -/
theorem retryLoopPart000_ne_ok {T E : Type} (Tty : Nat) (op : Nat → CallResult T E) :
    ∀ (fuel : Nat) (lastT : T) (lastE : Option E) (j interval : Nat) (v : T),
      (retryLoopPart000 Tty op fuel lastT lastE j interval).2 ≠ RetryOutcome.ok v := by
  intro fuel
  induction fuel with
  | zero => intro lastT lastE j interval v; simp [retryLoopPart000]
  | succ fuel ih =>
    intro lastT lastE j interval v
    by_cases hty : (op j).ty = Tty
    · cases herr : (op j).err with
      | none => simp [retryLoopPart000, hty, herr]
      | some e =>
        simp [retryLoopPart000, hty, herr]
        exact ih (op j).val (some e) (j + 1) _ v
    · simp [retryLoopPart000, hty]

/-- Loop lemma for the part_000 revision: whatever op does, the event trace
of the loop is a canonical trace, exactly as for the apikit.go loop (the
sleep-and-double code of the two loops is identical). -/
theorem retryLoopPart000_events {T E : Type} (Tty : Nat) (op : Nat → CallResult T E) :
    ∀ (fuel j : Nat) (lastT : T) (lastE : Option E),
      ∃ c, (retryLoopPart000 Tty op fuel lastT lastE j (1000000000 * 2 ^ (j - 1))).1
        = canonicalFrom j c := by
  intro fuel
  induction fuel with
  | zero => intro j lastT lastE; exact ⟨0, by simp [retryLoopPart000, canonicalFrom]⟩
  | succ fuel ih =>
    intro j lastT lastE
    by_cases hty : (op j).ty = Tty
    · cases herr : (op j).err with
      | none => exact ⟨1, by simp [retryLoopPart000, hty, herr, canonicalFrom]⟩
      | some e =>
        obtain ⟨c, hc⟩ := ih (j + 1) (op j).val (some e)
        simp only [Nat.add_sub_cancel] at hc
        exact ⟨c + 1, by
          simp [retryLoopPart000, hty, herr, canonicalFrom, interval_step, hc]⟩
    · exact ⟨1, by simp [retryLoopPart000, hty, canonicalFrom]⟩

/-- The part_000 loop never raises the shape panic either: that panic
happens only before the loop is entered. -/
theorem retryLoopPart000_ne_panicShape {T E : Type} (Tty : Nat) (op : Nat → CallResult T E) :
    ∀ (fuel : Nat) (lastT : T) (lastE : Option E) (j interval : Nat),
      (retryLoopPart000 Tty op fuel lastT lastE j interval).2
        ≠ RetryOutcome.panicShape := by
  intro fuel
  induction fuel with
  | zero => intro lastT lastE j interval; simp [retryLoopPart000]
  | succ fuel ih =>
    intro lastT lastE j interval
    by_cases hty : (op j).ty = Tty
    · cases herr : (op j).err with
      | none => simp [retryLoopPart000, hty, herr]
      | some e =>
        simp [retryLoopPart000, hty, herr]
        exact ih (op j).val (some e) (j + 1) _
    · simp [retryLoopPart000, hty]

/-- Classification of the error returned by GetTokenFromCookie, by the
sentinel comparisons the middlewares perform: `noCookie` is http.ErrNoCookie
(the only error r.Cookie can return), `cannotParse` is jwt.ErrCannotParse,
and `other` is any other error value (the something-else branch). -/
inductive TokenErr where
  | noCookie
  | cannotParse
  | other
deriving DecidableEq, Repr

/-- The request state the middlewares read and pass on: the named cookies of
the request and the request-scoped context values (context.WithValue pairs,
most recent first), with A the parsed token type (jwt.Jwt). -/
structure Request (A : Type) where
  cookie : String → Option String
  ctx : List (String × A)

/-- GetTokenFromCookie of src/apikit.go (lines 115-122, identical in all
revisions): reads the named cookie via r.Cookie, returning http.ErrNoCookie
when it is absent, and otherwise parses its value with jwt.FromString,
which is external and enters as the parameter `fromString`. -/
def GetTokenFromCookie {A : Type} (fromString : String → Except TokenErr A)
    (r : Request A) (name : String) : Except TokenErr A :=
  match r.cookie name with
  | none => Except.error TokenErr.noCookie
  | some v => fromString v

/-- What a middleware-wrapped handler invocation produced: `rejected (s, b)`
means the middleware wrote status s with plain-text body b and returned
without calling the wrapped handler, `handled x` means the wrapped handler
ran and produced x. -/
inductive MwResult (B : Type) where
  | rejected : Nat × String → MwResult B
  | handled : B → MwResult B
deriving DecidableEq, Repr

/-- ErrStatusUnauthorized of src/apikit.go (lines 37-39): the status and body
of the http.Error write. -/
def ErrStatusUnauthorized : Nat × String := (401, "Could not authorize")

/-- ErrInternal of src/apikit.go (lines 41-43). -/
def ErrInternal : Nat × String := (500, "internal error")

/-- ErrBadRequest of src/apikit.go (lines 45-47). -/
def ErrBadRequest : Nat × String := (400, "invalid request")

/-- ErrMethodNotAllowed of src/apikit.go (lines 49-51). -/
def ErrMethodNotAllowed : Nat × String := (405, "method not allowed")

/-- CookieTokenMiddleware of src/apikit.go (lines 64-85, identical in the
second revision at lines 235-256): extraction errors equal to
http.ErrNoCookie or jwt.ErrCannotParse are rejected with ErrBadRequest, any
other error with ErrInternal, an audience-invalid token with
ErrStatusUnauthorized, and otherwise the wrapped handler runs on the
original request, unchanged. -/
def CookieTokenMiddleware {A B : Type} (fromString : String → Except TokenErr A)
    (cookieName : String) (aud : A → Bool) (next : Request A → B)
    (r : Request A) : MwResult B :=
  match GetTokenFromCookie fromString r cookieName with
  | Except.error TokenErr.noCookie => MwResult.rejected ErrBadRequest
  | Except.error TokenErr.cannotParse => MwResult.rejected ErrBadRequest
  | Except.error TokenErr.other => MwResult.rejected ErrInternal
  | Except.ok token =>
      if aud token then MwResult.handled (next r)
      else MwResult.rejected ErrStatusUnauthorized

/-- Modelled from the spec: the default status-message table of the
packages Error(w, message, statusCode) writer, which src/unnamed/part_001
calls as kit.Error but whose body is not among the provided source files.
Per the spec it is used when the caller supplies an empty message:
401 maps to "unauthorized", 400 to "bad request", 500 to
"internal server error", and 405 to "method not allowed". -/
def defaultStatusMessage (status : Nat) : String :=
  if status = 401 then "unauthorized"
  else if status = 400 then "bad request"
  else if status = 500 then "internal server error"
  else if status = 405 then "method not allowed"
  else ""

/-- Modelled from the spec: the Error(w, message, statusCode) entry point of
the package (not among the provided source files; called by CheckToken in
src/unnamed/part_001). It writes the given message with the given status,
falling back to the default message for the status when the message is
empty. -/
def kitError (message : String) (status : Nat) : Nat × String :=
  (status, if message = "" then defaultStatusMessage status else message)

/-- CheckToken of src/unnamed/part_001 (lines 23-51): http.ErrNoCookie is
rejected with Error(w, "JWT cookie not present", 401), jwt.ErrCannotParse
with Error(w, "could not parse JWT", 401), any other extraction error with
Error(w, "", 500), an audience-invalid token with
Error(w, "invalid JWT", 401); otherwise the parsed token is attached to the
request context keyed by the cookie name and the wrapped handler runs on
the resulting request. -/
def CheckToken {A B : Type} (fromString : String → Except TokenErr A)
    (cookieName : String) (aud : A → Bool) (next : Request A → B)
    (r : Request A) : MwResult B :=
  match GetTokenFromCookie fromString r cookieName with
  | Except.error TokenErr.noCookie =>
      MwResult.rejected (kitError "JWT cookie not present" 401)
  | Except.error TokenErr.cannotParse =>
      MwResult.rejected (kitError "could not parse JWT" 401)
  | Except.error TokenErr.other =>
      MwResult.rejected (kitError "" 500)
  | Except.ok token =>
      if aud token then
        MwResult.handled (next { r with ctx := (cookieName, token) :: r.ctx })
      else
        MwResult.rejected (kitError "invalid JWT" 401)

/-- C1: for every policy with maxAttempts = n >= 1 and every operation that
fails on its first k invocations (k < n) and succeeds on invocation k + 1
(index k, zero-based), Retry returns the success value of that invocation
together with a nil error (outcome `ok`), invokes the operation exactly
k + 1 times, and performs no further attempts after the success: the whole
trace is the canonical trace of exactly k + 1 attempts. The operation is
well shaped and its first result carries the dynamic type T, as the claim
presupposes for a typed operation. -/
theorem retry_first_success {T E : Type} (Tty : Nat) (shape : FnShape) (n k : Nat)
    (op : Nat → CallResult T E) (zeroT : T)
    (hshape : paramsAreValid shape = false)
    (hn : 1 ≤ n) (hk : k < n)
    (hty : ∀ i, i ≤ k → (op i).ty = Tty)
    (hfail : ∀ i, i < k → (op i).err ≠ none)
    (hsucc : (op k).err = none) :
    Retry Tty shape n op zeroT = (canonicalEvents (k + 1), RetryOutcome.ok (op k).val)
      ∧ countCalls (Retry Tty shape n op zeroT).1 = k + 1 := by
  have hrun := retryLoop_first_success Tty op k n 0 zeroT none hk
    (fun i hi => by simpa using hty i hi)
    (fun i hi => by simpa using hfail i hi)
    (by simpa using hsucc)
  rw [show (1000000000 : Nat) * 2 ^ (0 - 1) = 1000000000 by norm_num] at hrun
  have hret : Retry Tty shape n op zeroT
      = (canonicalEvents (k + 1), RetryOutcome.ok (op k).val) := by
    simp only [Retry, hshape, Bool.false_eq_true, if_false]
    simpa [canonicalEvents] using hrun
  refine ⟨hret, ?_⟩
  rw [hret]
  simpa [canonicalEvents] using countCalls_canonicalFrom (k + 1) 0

/-- Witness for C1: an operation over Nat that fails twice (errors 7 and 8)
and succeeds on its third invocation; with n = 5 allowed attempts, Retry
stops after 3 invocations and returns the third result 20 with nil error. -/
theorem retry_first_success_witness :
    Retry 0 (FnShape.mk true 2 true 0) 5
        (fun i => (CallResult.mk 0 (i * 10) (if i < 2 then some (i + 7) else none) : CallResult Nat Nat)) 0
      = (canonicalEvents 3, RetryOutcome.ok 20)
    ∧ countCalls (Retry 0 (FnShape.mk true 2 true 0) 5
        (fun i => (CallResult.mk 0 (i * 10) (if i < 2 then some (i + 7) else none) : CallResult Nat Nat)) 0).1 = 3 := by
  have h := retry_first_success 0 (FnShape.mk true 2 true 0) 5 2
    (fun i => (CallResult.mk 0 (i * 10) (if i < 2 then some (i + 7) else none) : CallResult Nat Nat)) 0
    (by decide) (by omega) (by omega)
    (fun i hi => rfl)
    (fun i hi => by simp [hi])
    (by simp)
  exact h

/-- C2: for every n >= 1 and every operation that fails on all invocations,
Retry invokes the operation exactly n times and returns the value and error
produced by the n-th (last) invocation, the error propagated as the value
`errf (n - 1)` itself (outcome `lastErr`), not wrapped in any aggregate
error: no aggregate constructor even exists in the outcome of the code. -/
theorem retry_always_fails {T E : Type} (Tty : Nat) (shape : FnShape) (n : Nat)
    (op : Nat → CallResult T E) (zeroT : T) (errf : Nat → E)
    (hshape : paramsAreValid shape = false)
    (hn : 1 ≤ n)
    (hty : ∀ i, i < n → (op i).ty = Tty)
    (hfail : ∀ i, i < n → (op i).err = some (errf i)) :
    Retry Tty shape n op zeroT
        = (canonicalEvents n, RetryOutcome.lastErr (op (n - 1)).val (errf (n - 1)))
      ∧ countCalls (Retry Tty shape n op zeroT).1 = n := by
  have hrun := retryLoop_all_fail Tty op errf n 0 zeroT none hn
    (fun i hi => by simpa using hty i hi)
    (fun i hi => by simpa using hfail i hi)
  rw [show (1000000000 : Nat) * 2 ^ (0 - 1) = 1000000000 by norm_num] at hrun
  have hret : Retry Tty shape n op zeroT
      = (canonicalEvents n, RetryOutcome.lastErr (op (n - 1)).val (errf (n - 1))) := by
    simp only [Retry, hshape, Bool.false_eq_true, if_false]
    simpa [canonicalEvents] using hrun
  refine ⟨hret, ?_⟩
  rw [hret]
  simpa [canonicalEvents] using countCalls_canonicalFrom n 0

/-- Witness for C2: an operation over Nat that always fails with error
i + 7 on invocation i; with n = 3, Retry performs 3 invocations and returns
the third value 20 together with the third error 9, unwrapped. -/
theorem retry_always_fails_witness :
    Retry 0 (FnShape.mk true 2 true 0) 3
        (fun i => (CallResult.mk 0 (i * 10) (some (i + 7)) : CallResult Nat Nat)) 0
      = (canonicalEvents 3, RetryOutcome.lastErr 20 9)
    ∧ countCalls (Retry 0 (FnShape.mk true 2 true 0) 3
        (fun i => (CallResult.mk 0 (i * 10) (some (i + 7)) : CallResult Nat Nat)) 0).1 = 3 := by
  have h := retry_always_fails 0 (FnShape.mk true 2 true 0) 3
    (fun i => (CallResult.mk 0 (i * 10) (some (i + 7)) : CallResult Nat Nat)) 0
    (fun i => i + 7) (by decide) (by omega)
    (fun i hi => rfl) (fun i hi => rfl)
  exact h

/-- C3: in every run of Retry (any shape, any operation, any nTries), in
the src/apikit.go embedding and in the part_000 one alike, the event trace
is the canonical trace of its number of attempts: no sleep before attempt
0, a single sleep of exactly 1000000000 * 2 ^ (i - 1) nanoseconds (initial
delay one second, multiplier two) directly before each attempt i >= 1, and
no sleep after the final attempt. -/
theorem retry_backoff_schedule {T E : Type} (Tty : Nat) (shape : FnShape) (n : Nat)
    (op : Nat → CallResult T E) (zeroT : T) :
    ((Retry Tty shape n op zeroT).1
      = canonicalEvents (countCalls (Retry Tty shape n op zeroT).1))
    ∧ ((RetryPart000 Tty shape n op zeroT).1
      = canonicalEvents (countCalls (RetryPart000 Tty shape n op zeroT).1)) := by
  constructor
  · by_cases hs : paramsAreValid shape
    · simp [Retry, hs, canonicalEvents, canonicalFrom, countCalls]
    · obtain ⟨c, hc⟩ := retryLoop_events Tty op n 0 zeroT none
      rw [show (1000000000 : Nat) * 2 ^ (0 - 1) = 1000000000 by norm_num] at hc
      simp only [Retry, if_neg hs]
      rw [hc]
      rw [show countCalls (canonicalFrom 0 c) = c from countCalls_canonicalFrom c 0]
      rfl
  · by_cases hs : paramsAreValid shape
    · simp [RetryPart000, hs, canonicalEvents, canonicalFrom, countCalls]
    · obtain ⟨c, hc⟩ := retryLoopPart000_events Tty op n 0 zeroT none
      rw [show (1000000000 : Nat) * 2 ^ (0 - 1) = 1000000000 by norm_num] at hc
      simp only [RetryPart000, if_neg hs]
      rw [hc]
      rw [show countCalls (canonicalFrom 0 c) = c from countCalls_canonicalFrom c 0]
      rfl

/-- C6 counterexample: with nTries = 0 and a well-shaped fn, the Retry of
src/apikit.go never invokes the operation (empty trace) but ends in the
run-time panic of the after-loop `returnedError.(error)` assertion on a nil
interface, instead of returning the zero value with a nil error as the
claim states: the panic outcome differs from the plain no-error return
`done 0 none`. -/
theorem retry_zero_tries_counterexample :
    Retry 0 (FnShape.mk true 2 true 0) 0
        (fun _ => (CallResult.mk 0 0 none : CallResult Nat Nat)) 0
      = ([], RetryOutcome.panicNilErrAssert)
    ∧ (RetryOutcome.panicNilErrAssert : RetryOutcome Nat Nat)
        ≠ RetryOutcome.done 0 none := by
  exact ⟨rfl, by decide⟩

/-- C6 (amended): with maxAttempts (nTries) = 0 and a well-shaped fn, the
operation is never invoked (empty trace); the Retry of src/apikit.go (both
copies) then panics at the trailing `returnedError.(error)` type assertion
on a nil interface rather than returning, while the part_000 variant
returns the zero value of the result type together with a nil error,
without panicking. -/
theorem retry_zero_tries {T E : Type} (Tty : Nat) (shape : FnShape)
    (op : Nat → CallResult T E) (zeroT : T)
    (hshape : paramsAreValid shape = false) :
    Retry Tty shape 0 op zeroT = ([], RetryOutcome.panicNilErrAssert)
      ∧ RetryPart000 Tty shape 0 op zeroT = ([], RetryOutcome.done zeroT none) := by
  constructor <;> simp [Retry, RetryPart000, hshape, retryLoop, retryLoopPart000]

/-- Witness for C6 (amended) at a concrete well-shaped fn over Nat. -/
theorem retry_zero_tries_witness :
    Retry 0 (FnShape.mk true 2 true 0)
        0 (fun _ => (CallResult.mk 0 0 (some 1) : CallResult Nat Nat)) 0
      = ([], RetryOutcome.panicNilErrAssert)
    ∧ RetryPart000 0 (FnShape.mk true 2 true 0)
        0 (fun _ => (CallResult.mk 0 0 (some 1) : CallResult Nat Nat)) 0
      = ([], RetryOutcome.done 0 none) :=
  retry_zero_tries 0 (FnShape.mk true 2 true 0)
    (fun _ => (CallResult.mk 0 0 (some 1) : CallResult Nat Nat)) 0 (by decide)

/-- C7: the precondition check, shared verbatim by the src/apikit.go
copies and the part_000 revision of Retry, fires exactly when fn is not a
function, or has a number of results other than 2, or a second result type
other than error (first conjunct); when it fires, both Retry embeddings
panic with the shape panic before any invocation of fn (empty trace,
second and fourth conjuncts); and when the shape is acceptable, the check
passes and no shape panic can occur in the whole run of either embedding
(third and fifth conjuncts). -/
theorem retry_shape_precondition {T E : Type} (Tty n : Nat) (shape : FnShape)
    (op : Nat → CallResult T E) (zeroT : T) :
    (paramsAreValid shape = true
        ↔ shape.isFunc = false ∨ shape.numOut ≠ 2 ∨ shape.out1IsError = false)
    ∧ (paramsAreValid shape = true →
        Retry Tty shape n op zeroT = ([], RetryOutcome.panicShape))
    ∧ (paramsAreValid shape = false →
        (Retry Tty shape n op zeroT).2 ≠ RetryOutcome.panicShape)
    ∧ (paramsAreValid shape = true →
        RetryPart000 Tty shape n op zeroT = ([], RetryOutcome.panicShape))
    ∧ (paramsAreValid shape = false →
        (RetryPart000 Tty shape n op zeroT).2 ≠ RetryOutcome.panicShape) := by
  refine ⟨?_, ?_, ?_, ?_, ?_⟩
  · simp [paramsAreValid, or_assoc]
  · intro h
    simp [Retry, h]
  · intro h
    simp only [Retry, h, Bool.false_eq_true, if_false]
    exact retryLoop_ne_panicShape Tty op n zeroT none 0 1000000000
  · intro h
    simp [RetryPart000, h]
  · intro h
    simp only [RetryPart000, h, Bool.false_eq_true, if_false]
    exact retryLoopPart000_ne_panicShape Tty op n zeroT none 0 1000000000

/-- Witness for C7: a non-function argument (shape with isFunc = false)
makes both Retry embeddings abort with the shape panic and an empty trace,
and a well-shaped function is shape-panicked by neither. -/
theorem retry_shape_precondition_witness :
    Retry 0 (FnShape.mk false 2 true 0)
        3 (fun _ => (CallResult.mk 0 0 none : CallResult Nat Nat)) 0
      = ([], RetryOutcome.panicShape)
    ∧ (Retry 0 (FnShape.mk true 2 true 0)
        3 (fun _ => (CallResult.mk 0 0 none : CallResult Nat Nat)) 0).2
      ≠ RetryOutcome.panicShape
    ∧ RetryPart000 0 (FnShape.mk false 2 true 0)
        3 (fun _ => (CallResult.mk 0 0 none : CallResult Nat Nat)) 0
      = ([], RetryOutcome.panicShape)
    ∧ (RetryPart000 0 (FnShape.mk true 2 true 0)
        3 (fun _ => (CallResult.mk 0 0 none : CallResult Nat Nat)) 0).2
      ≠ RetryOutcome.panicShape :=
  ⟨(retry_shape_precondition 0 3 (FnShape.mk false 2 true 0)
      (fun _ => (CallResult.mk 0 0 none : CallResult Nat Nat)) 0).2.1 (by decide),
   (retry_shape_precondition 0 3 (FnShape.mk true 2 true 0)
      (fun _ => (CallResult.mk 0 0 none : CallResult Nat Nat)) 0).2.2.1 (by decide),
   (retry_shape_precondition 0 3 (FnShape.mk false 2 true 0)
      (fun _ => (CallResult.mk 0 0 none : CallResult Nat Nat)) 0).2.2.2.1 (by decide),
   (retry_shape_precondition 0 3 (FnShape.mk true 2 true 0)
      (fun _ => (CallResult.mk 0 0 none : CallResult Nat Nat)) 0).2.2.2.2 (by decide)⟩

/-- C9: the precondition check (shared verbatim by the src/apikit.go copies
and the part_000 revision) reads only isFunc, the number of results and
whether the second result type is error; it is invariant under any change
of the first result type (first conjunct, for every shape and every
replacement type t). Consequently, for a well-shaped fn whose first result
carries a dynamic type different from T, the check passes and both Retry
embeddings panic at the `results[0].Interface().(T)` assertion during the
first invocation, after that invocation has already happened: the trace
contains the call event (second and third conjuncts). -/
theorem retry_unchecked_result_type {T E : Type} (Tty n t : Nat) (shape : FnShape)
    (op : Nat → CallResult T E) (zeroT : T)
    (hshape : paramsAreValid shape = false)
    (hty : (op 0).ty ≠ Tty) :
    paramsAreValid { shape with out0Ty := t } = paramsAreValid shape
    ∧ Retry Tty shape (n + 1) op zeroT
        = ([REvent.call 0], RetryOutcome.panicFirstAssert 0)
    ∧ RetryPart000 Tty shape (n + 1) op zeroT
        = ([REvent.call 0], RetryOutcome.panicFirstAssert 0) := by
  refine ⟨rfl, ?_, ?_⟩
  · simp [Retry, hshape, retryLoop, hty]
  · simp [RetryPart000, hshape, retryLoopPart000, hty]

/-- Witness for C9: a well-shaped fn whose first result carries dynamic type
1 while T has identifier 0 passes the check and makes both Retry embeddings
panic at the first type assertion with the single call already performed. -/
theorem retry_unchecked_result_type_witness :
    paramsAreValid { FnShape.mk true 2 true 5 with out0Ty := 9 }
        = paramsAreValid (FnShape.mk true 2 true 5)
    ∧ Retry 0 (FnShape.mk true 2 true 5)
        3 (fun _ => (CallResult.mk 1 0 none : CallResult Nat Nat)) 0
      = ([REvent.call 0], RetryOutcome.panicFirstAssert 0)
    ∧ RetryPart000 0 (FnShape.mk true 2 true 5)
        3 (fun _ => (CallResult.mk 1 0 none : CallResult Nat Nat)) 0
      = ([REvent.call 0], RetryOutcome.panicFirstAssert 0) :=
  retry_unchecked_result_type 0 2 9 (FnShape.mk true 2 true 5)
    (fun _ => (CallResult.mk 1 0 none : CallResult Nat Nat)) 0 (by decide) (by decide)

/-- C10: in the Retry variant of src/unnamed/part_000, an invocation that
returns a nil error panics at the unconditional
`results[1].Interface().(error)` assertion of that very invocation (first
conjunct: first k attempts fail, attempt k returns nil error, the run ends
in `panicErrAssert k` right after the k-th call); and that variant can
never produce the in-loop success return `ok` for any nTries, operation and
zero value (second conjunct). -/
theorem retryPart000_nil_error_panics {T E : Type} (Tty n k : Nat) (shape : FnShape)
    (op : Nat → CallResult T E) (zeroT : T)
    (hshape : paramsAreValid shape = false)
    (hk : k < n)
    (hty : ∀ i, i ≤ k → (op i).ty = Tty)
    (hfail : ∀ i, i < k → (op i).err ≠ none)
    (hnil : (op k).err = none) :
    RetryPart000 Tty shape n op zeroT
        = (canonicalEvents (k + 1), RetryOutcome.panicErrAssert k)
    ∧ ∀ (m : Nat) (q : Nat → CallResult T E) (z : T) (v : T),
        (RetryPart000 Tty shape m q z).2 ≠ RetryOutcome.ok v := by
  constructor
  · have hrun := retryLoopPart000_first_nil Tty op k n 0 zeroT none hk
      (fun i hi => by simpa using hty i hi)
      (fun i hi => by simpa using hfail i hi)
      (by simpa using hnil)
    rw [show (1000000000 : Nat) * 2 ^ (0 - 1) = 1000000000 by norm_num] at hrun
    simp only [RetryPart000, hshape, Bool.false_eq_true, if_false]
    simpa [canonicalEvents] using hrun
  · intro m q z v
    simp only [RetryPart000, hshape, Bool.false_eq_true, if_false]
    exact retryLoopPart000_ne_ok Tty q m z none 0 1000000000 v

/-- Witness for C10: an operation over Nat that fails once and returns a
nil error on its second invocation makes the part_000 Retry panic at the
error assertion of invocation 1, and the same variant never yields ok. -/
theorem retryPart000_nil_error_panics_witness :
    RetryPart000 0 (FnShape.mk true 2 true 0) 4
        (fun i => (CallResult.mk 0 (i * 10) (if i < 1 then some 7 else none) : CallResult Nat Nat)) 0
      = (canonicalEvents 2, RetryOutcome.panicErrAssert 1)
    ∧ (RetryPart000 0 (FnShape.mk true 2 true 0) 4
        (fun i => (CallResult.mk 0 (i * 10) (if i < 1 then some 7 else none) : CallResult Nat Nat)) 0).2
      ≠ RetryOutcome.ok 10 := by
  have h := retryPart000_nil_error_panics 0 4 1 (FnShape.mk true 2 true 0)
    (fun i => (CallResult.mk 0 (i * 10) (if i < 1 then some 7 else none) : CallResult Nat Nat)) 0
    (by decide) (by omega)
    (fun i hi => rfl)
    (fun i hi => by simp [hi])
    (by simp)
  exact ⟨h.1, h.2 4 _ 0 10⟩

/-- C4 counterexample: for a request with no cookie under the given name,
the CookieTokenMiddleware of src/apikit.go (one of the two middlewares the
claim cites) rejects with ErrBadRequest, status 400 body "invalid request",
not with status 401 as the claim states. -/
theorem middleware_absent_cookie_counterexample :
    CookieTokenMiddleware (fun _ => (Except.ok 0 : Except TokenErr Nat))
        "session" (fun _ => true) (fun r2 => r2.ctx)
        (Request.mk (fun _ => none) [])
      = MwResult.rejected (400, "invalid request")
    ∧ (400 : Nat) ≠ 401 := by
  exact ⟨rfl, by decide⟩

/-- C4 (amended): the CheckToken middleware of src/unnamed/part_001
classifies credential-extraction failures as the claim states: credential
absent in the named cookie rejects with 401 "JWT cookie not present",
credential present but unparseable rejects with 401 "could not parse JWT",
and any other extraction failure rejects with 500 (body defaulting to
"internal server error"); the CookieTokenMiddleware of src/apikit.go,
however, rejects both the absent and the unparseable cases with
400 "invalid request" and other failures with 500 "internal error". In
every rejection case the wrapped handler is never invoked: for EVERY
wrapped handler `next`, of every result type, the result is the same
rejection value, which carries no handler output. -/
theorem middleware_extraction_failure_classification {A B : Type}
    (fromString : String → Except TokenErr A) (cookieName : String)
    (aud : A → Bool) (r : Request A) :
    (r.cookie cookieName = none →
        ∀ next : Request A → B,
        CheckToken fromString cookieName aud next r
            = MwResult.rejected (401, "JWT cookie not present")
        ∧ CookieTokenMiddleware fromString cookieName aud next r
            = MwResult.rejected (400, "invalid request"))
    ∧ (∀ raw, r.cookie cookieName = some raw →
        fromString raw = Except.error TokenErr.cannotParse →
        ∀ next : Request A → B,
        CheckToken fromString cookieName aud next r
            = MwResult.rejected (401, "could not parse JWT")
        ∧ CookieTokenMiddleware fromString cookieName aud next r
            = MwResult.rejected (400, "invalid request"))
    ∧ (∀ raw, r.cookie cookieName = some raw →
        fromString raw = Except.error TokenErr.other →
        ∀ next : Request A → B,
        CheckToken fromString cookieName aud next r
            = MwResult.rejected (500, "internal server error")
        ∧ CookieTokenMiddleware fromString cookieName aud next r
            = MwResult.rejected (500, "internal error")) := by
  refine ⟨?_, ?_, ?_⟩
  · intro h next
    exact ⟨by simp [CheckToken, GetTokenFromCookie, h]; rfl,
           by simp [CookieTokenMiddleware, GetTokenFromCookie, h]; rfl⟩
  · intro raw hraw hparse next
    exact ⟨by simp [CheckToken, GetTokenFromCookie, hraw, hparse]; rfl,
           by simp [CookieTokenMiddleware, GetTokenFromCookie, hraw, hparse]; rfl⟩
  · intro raw hraw hparse next
    exact ⟨by simp [CheckToken, GetTokenFromCookie, hraw, hparse]; rfl,
           by simp [CookieTokenMiddleware, GetTokenFromCookie, hraw, hparse]; rfl⟩

/-- Witness for C4 (amended), absent-cookie branch at concrete values: the
request has no cookies, CheckToken answers 401 "JWT cookie not present" and
CookieTokenMiddleware answers 400 "invalid request". -/
theorem middleware_extraction_failure_classification_witness :
    CheckToken (fun _ => (Except.ok 0 : Except TokenErr Nat))
        "session" (fun _ => true) (fun r2 => r2.ctx)
        (Request.mk (fun _ => none) [])
      = MwResult.rejected (401, "JWT cookie not present")
    ∧ CookieTokenMiddleware (fun _ => (Except.ok 0 : Except TokenErr Nat))
        "session" (fun _ => true) (fun r2 => r2.ctx)
        (Request.mk (fun _ => none) [])
      = MwResult.rejected (400, "invalid request") :=
  (middleware_extraction_failure_classification
      (fun _ => (Except.ok 0 : Except TokenErr Nat)) "session"
      (fun _ => true)
      (Request.mk (fun _ => none) [])).1 rfl (fun r2 => r2.ctx)

/-- C5 counterexample: for a request whose credential parses and passes the
audience check, the CookieTokenMiddleware of src/apikit.go (one of the two
middlewares the claim cites) forwards the request with its context
untouched: the wrapped handler observes an empty context, with no token
attached under the cookie name, contrary to the claim. -/
theorem middleware_no_ctx_attach_counterexample :
    CookieTokenMiddleware (fun _ => (Except.ok 7 : Except TokenErr Nat))
        "session" (fun _ => true) (fun r2 => r2.ctx)
        (Request.mk (fun _ => some "raw") [])
      = MwResult.handled []
    ∧ ([] : List (String × Nat)) ≠ [("session", 7)] := by
  exact ⟨rfl, by decide⟩

/-- C5 (amended): for a request carrying a well-formed credential, if the
audience predicate rejects the parsed token, CheckToken rejects with
401 "invalid JWT" and CookieTokenMiddleware with 401 "Could not authorize";
if the predicate accepts it, CheckToken forwards the request unmodified
except that the parsed token is attached to the request context keyed by
the cookie name, while CookieTokenMiddleware forwards the request fully
unmodified, without attaching the token. -/
theorem middleware_audience_decision {A B : Type}
    (fromString : String → Except TokenErr A) (cookieName : String)
    (aud : A → Bool) (next : Request A → B) (r : Request A)
    (raw : String) (token : A)
    (hraw : r.cookie cookieName = some raw)
    (hparse : fromString raw = Except.ok token) :
    (aud token = false →
        CheckToken fromString cookieName aud next r
            = MwResult.rejected (401, "invalid JWT")
        ∧ CookieTokenMiddleware fromString cookieName aud next r
            = MwResult.rejected (401, "Could not authorize"))
    ∧ (aud token = true →
        CheckToken fromString cookieName aud next r
            = MwResult.handled (next { r with ctx := (cookieName, token) :: r.ctx })
        ∧ CookieTokenMiddleware fromString cookieName aud next r
            = MwResult.handled (next r)) := by
  constructor
  · intro h
    exact ⟨by simp [CheckToken, GetTokenFromCookie, hraw, hparse, h]; rfl,
           by simp [CookieTokenMiddleware, GetTokenFromCookie, hraw, hparse, h]; rfl⟩
  · intro h
    exact ⟨by simp [CheckToken, GetTokenFromCookie, hraw, hparse, h],
           by simp [CookieTokenMiddleware, GetTokenFromCookie, hraw, hparse, h]⟩

/-- Witness for C5 (amended), valid branch at concrete values: the parsed
token 7 is accepted; CheckToken hands the wrapped handler a context with
the token under the cookie name, CookieTokenMiddleware an unchanged empty
context. -/
theorem middleware_audience_decision_witness :
    CheckToken (fun _ => (Except.ok 7 : Except TokenErr Nat))
        "session" (fun _ => true) (fun r2 => r2.ctx)
        (Request.mk (fun _ => some "raw") [])
      = MwResult.handled [("session", 7)]
    ∧ CookieTokenMiddleware (fun _ => (Except.ok 7 : Except TokenErr Nat))
        "session" (fun _ => true) (fun r2 => r2.ctx)
        (Request.mk (fun _ => some "raw") [])
      = MwResult.handled [] :=
  (middleware_audience_decision (fun _ => (Except.ok 7 : Except TokenErr Nat))
      "session" (fun _ => true) (fun r2 => r2.ctx)
      (Request.mk (fun _ => some "raw") []) "raw" 7 rfl rfl).2 rfl

/-- C8 counterexample: the error-response helpers of src/apikit.go write
fixed bodies that differ from the default table the claim states: the 401
helper writes "Could not authorize", not "unauthorized", and the 500 helper
writes "internal error", not "internal server error". -/
theorem error_helper_table_counterexample :
    ErrStatusUnauthorized = (401, "Could not authorize")
    ∧ ErrInternal = (500, "internal error")
    ∧ "Could not authorize" ≠ "unauthorized"
    ∧ "internal error" ≠ "internal server error" := by
  exact ⟨rfl, rfl, by decide, by decide⟩

/-- C8 (amended): the error-response helpers of src/apikit.go take no
caller message at all and write fixed bodies, of which only the 405 one
matches the table the claim states: 401 writes "Could not authorize",
400 writes "invalid request", 500 writes "internal error", 405 writes
"method not allowed". The claimed default table does hold of the
spec-modelled Error entry point (absent from the provided sources) when the
caller supplies an empty message. -/
theorem error_helper_bodies :
    ErrStatusUnauthorized = (401, "Could not authorize")
    ∧ ErrBadRequest = (400, "invalid request")
    ∧ ErrInternal = (500, "internal error")
    ∧ ErrMethodNotAllowed = (405, "method not allowed")
    ∧ kitError "" 401 = (401, "unauthorized")
    ∧ kitError "" 400 = (400, "bad request")
    ∧ kitError "" 500 = (500, "internal server error")
    ∧ kitError "" 405 = (405, "method not allowed") := by
  exact ⟨rfl, rfl, rfl, rfl, rfl, rfl, rfl, rfl⟩

end Apikit
